import Mathlib

/-!
Verification of the Cairn agent orchestrator (`src/cairn/`) against its
natural-language specification.

The development shallowly embeds the Python modules the claims touch:

* `cairn/queue.py`     — `TaskPriority`, `QueuedTask`, `TaskQueue`
* `cairn/agent.py`     — `AgentState`, `AgentContext.transition`
* `cairn/external_functions.py` — `read_file`, `write_file`, `file_exists`,
  `submit_result`
* `cairn/orchestrator.py` — `accept_agent`, `reject_agent`,
  `_merge_overlay_to_stable`, the submitting phase of `_run_agent`
* `cairn/executor.py`  — `validate_code`
* `cairn/kv_store.py`  — `save_submission`, `load_submission`
* `cairn/commands.py`  — `CairnCommand.__post_init__`, `parse_command_payload`
* `cairn/signals.py`   — `SignalHandler.process_signals_once`

Python library facilities that the modules use are embedded by their
documented contracts: `heapq` is a min-heap whose pop returns the smallest
item, `time.time()` is a monotone clock (modelled as a logical counter),
JSON values are the inductive `Json` type, and the AgentFS backing store of
one layer is a finite map from paths to contents (an association list).
-/

namespace Cairn

/-! ## Priority queue (`cairn/queue.py`) -/

/-- `TaskPriority(int, Enum)`: LOW=1, NORMAL=2, HIGH=3, URGENT=4. -/
inductive TaskPriority where
  | low
  | normal
  | high
  | urgent
deriving DecidableEq, Repr

/-- `int(priority)` — the integer value of the enum member. -/
def TaskPriority.toInt : TaskPriority → Int
  | .low => 1
  | .normal => 2
  | .high => 3
  | .urgent => 4

/-- `TaskPriority(n)` — enum lookup by value; raises `ValueError` (modelled
as `Except.error`) for an integer outside 1..4. -/
def TaskPriority.ofInt : Int → Except String TaskPriority
  | 1 => .ok .low
  | 2 => .ok .normal
  | 3 => .ok .high
  | 4 => .ok .urgent
  | _ => .error "invalid TaskPriority value"

/-- `QueuedTask`: the entry stored in the orchestrator queue.
`created_at` is `time.time()` at enqueue, modelled as a logical tick. -/
structure QueuedTask where
  task : String
  priority : TaskPriority
  created_at : Nat
deriving DecidableEq, Repr

/-- `QueuedTask.__post_init__` sets `_sort_key = (-int(priority), created_at)`;
`@dataclass(order=True)` compares tasks by this key alone. -/
def QueuedTask.sortKey (t : QueuedTask) : Int × Nat :=
  (-(t.priority.toInt), t.created_at)

/-- Lexicographic order on `(-priority, created_at)` keys: tuple comparison
as Python performs it on `_sort_key`. -/
def keyLE (a b : Int × Nat) : Prop :=
  a.1 < b.1 ∨ (a.1 = b.1 ∧ a.2 ≤ b.2)

instance (a b : Int × Nat) : Decidable (keyLE a b) :=
  inferInstanceAs (Decidable (a.1 < b.1 ∨ (a.1 = b.1 ∧ a.2 ≤ b.2)))

/-- `heapq.heappop` on the heap list, embedded by the library's documented
contract: it removes and returns the smallest item (here: smallest
`_sort_key` under the dataclass order).  Returns the popped task and the
remaining heap contents. -/
def popMin : List QueuedTask → Option (QueuedTask × List QueuedTask)
  | [] => none
  | t :: ts =>
    match popMin ts with
    | none => some (t, [])
    | some (m, rest) =>
      if keyLE t.sortKey m.sortKey then some (t, ts) else some (m, t :: rest)

/-- `TaskQueue.__init__(max_concurrent=5)`: heap contents, the concurrency
slot counter `active_count`, and `completed_count`.  `clock` models the
monotone `time.time()` source that stamps `created_at`. -/
structure TaskQueue where
  max_concurrent : Nat := 5
  queue : List QueuedTask := []
  active_count : Nat := 0
  completed_count : Nat := 0
  clock : Nat := 0
deriving DecidableEq, Repr

/-- `TaskQueue.enqueue`: build a `QueuedTask` stamped with the current time
and `heapq.heappush` it. -/
def TaskQueue.enqueue (q : TaskQueue) (task : String)
    (priority : TaskPriority := .normal) : TaskQueue :=
  { q with
    queue := q.queue ++ [⟨task, priority, q.clock⟩]
    clock := q.clock + 1 }

/-- `TaskQueue.dequeue`: returns `None` when `active_count >=
max_concurrent` or the heap is empty; otherwise `heapq.heappop`s the
smallest-keyed task and increments `active_count`. -/
def TaskQueue.dequeue (q : TaskQueue) : Option QueuedTask × TaskQueue :=
  if q.max_concurrent ≤ q.active_count then (none, q)
  else
    match popMin q.queue with
    | none => (none, q)
    | some (t, rest) =>
      (some t, { q with queue := rest, active_count := q.active_count + 1 })

/-- `TaskQueue.mark_complete`: release a concurrency slot and bump the
completion counter (only when a slot is held). -/
def TaskQueue.mark_complete (q : TaskQueue) : TaskQueue :=
  if 0 < q.active_count then
    { q with
      active_count := q.active_count - 1
      completed_count := q.completed_count + 1 }
  else q

/-- `TaskQueue.size`: current number of queued tasks. -/
def TaskQueue.size (q : TaskQueue) : Nat := q.queue.length

/-- Concrete queue used to exercise the dequeue-ordering theorem: two
`URGENT` tasks enqueued in order, then a `LOW` task. -/
def qOrderDemo : TaskQueue :=
  ((({} : TaskQueue).enqueue "a" .urgent).enqueue "b" .urgent).enqueue "low" .low

/-- Concrete queue used to exercise the concurrency gate: capacity one,
two tasks enqueued. -/
def qGateDemo : TaskQueue :=
  (({ max_concurrent := 1 } : TaskQueue).enqueue "task-1").enqueue "task-2"

/-! ## Overlay layers and the orchestrator
(`cairn/external_functions.py`, `cairn/agent.py`, `cairn/orchestrator.py`)

One AgentFS layer's file namespace is a finite map from paths to contents,
embedded as an association list.  The agent's AgentFS is opened with only a
DB path and therefore has no built-in base; the read-through fall-through
to stable lives in `CairnExternalFunctions.read_file` itself. -/

/-- Association-list lookup: the backing store's `read`/`get`. -/
def alookup {α : Type} : List (String × α) → String → Option α
  | [], _ => none
  | (k, v) :: rest, key => if key = k then some v else alookup rest key

/-- Remove every binding of a key. -/
def aerase {α : Type} : List (String × α) → String → List (String × α)
  | [], _ => []
  | (k, v) :: rest, key =>
    if key = k then aerase rest key else (k, v) :: aerase rest key

/-- Upsert a binding: the backing store's `write_file`/`set`. -/
def aset {α : Type} (m : List (String × α)) (k : String) (v : α) :
    List (String × α) :=
  (k, v) :: aerase m k

/-- One layer's file namespace: path → content. -/
abbrev FileMap := List (String × String)

/-- `CairnExternalFunctions.read_file`: try the agent overlay first; on
`FileNotFoundError` fall through to the stable base; `none` models the
final `FileNotFoundError` (the spec's `NotFound`). -/
def read_file (agent_fs stable_fs : FileMap) (path : String) : Option String :=
  match alookup agent_fs path with
  | some content => some content
  | none => alookup stable_fs path

/-- `CairnExternalFunctions.write_file`: writes to the agent overlay only
and returns the updated overlay (stable is not an input of the write). -/
def write_file (agent_fs : FileMap) (path content : String) : FileMap :=
  aset agent_fs path content

/-- `CairnExternalFunctions.file_exists`: `stat` on the agent's own AgentFS
(which has no base configured), so only the agent layer is consulted. -/
def file_exists (agent_fs : FileMap) (path : String) : Bool :=
  (alookup agent_fs path).isSome

/-- `AgentState` lifecycle states (`cairn/agent.py`). -/
inductive AgentState where
  | queued
  | spawning
  | generating
  | executing
  | submitting
  | reviewing
  | accepted
  | rejected
  | errored
deriving DecidableEq, Repr

/-- `AgentContext`: the runtime metadata the accept/reject/write claims
observe (identifier is the key under which the context is stored). -/
structure AgentContext where
  task : String := ""
  state : AgentState := .queued
  overlay : FileMap := []
  error : Option String := none
deriving DecidableEq, Repr

/-- `AgentContext.transition`: sets the new state unconditionally (and
refreshes `state_changed_at`, not modelled); no validation is performed. -/
def AgentContext.transition (ctx : AgentContext) (new_state : AgentState) :
    AgentContext :=
  { ctx with state := new_state }

/-- `CairnOrchestrator` state relevant to the claims: the stable layer,
the in-memory `active_agents` map, and the lifecycle store (`bin.db` KV,
written through `_save_lifecycle_record` / `trash_agent`). -/
structure Orchestrator where
  stable : FileMap := []
  active_agents : List (String × AgentContext) := []
  lifecycle : List (String × AgentContext) := []
deriving DecidableEq, Repr

/-- An agent script calling `write_file(path, content)`: the external
function writes into that agent's own overlay and nothing else. -/
def writeFileOp (o : Orchestrator) (aid path content : String) :
    Orchestrator :=
  match alookup o.active_agents aid with
  | none => o
  | some ctx =>
    { o with
      active_agents :=
        aset o.active_agents aid
          { ctx with overlay := write_file ctx.overlay path content } }

/-- `CairnOrchestrator._merge_overlay_to_stable`: recursive walk of the
agent overlay (the agent AgentFS holds only the agent's own writes); every
file found is read from the overlay and written into stable at the same
path. -/
def mergeOverlayToStable (overlay stable : FileMap) : FileMap :=
  overlay.foldl (fun acc pc => aset acc pc.1 pc.2) stable

/-- `CairnOrchestrator.trash_agent`: persist the final lifecycle record
and drop the in-memory context (DB file moves not modelled). -/
def trash_agent (o : Orchestrator) (aid : String) : Orchestrator :=
  match alookup o.active_agents aid with
  | none => o
  | some ctx =>
    { o with
      lifecycle := aset o.lifecycle aid ctx
      active_agents := aerase o.active_agents aid }

/-- `CairnOrchestrator.accept_agent`: look the agent up (`KeyError`,
modelled as `Except.error`, when unknown), transition to `accepted`
unconditionally, persist the record, merge the overlay into stable, and
trash the agent. -/
def accept_agent (o : Orchestrator) (aid : String) :
    Except String Orchestrator :=
  match alookup o.active_agents aid with
  | none => .error "KeyError"
  | some ctx =>
    let ctx2 := ctx.transition .accepted
    let o1 :=
      { o with
        active_agents := aset o.active_agents aid ctx2
        lifecycle := aset o.lifecycle aid ctx2 }
    let o2 := { o1 with stable := mergeOverlayToStable ctx2.overlay o1.stable }
    .ok (trash_agent o2 aid)

/-- `CairnOrchestrator.reject_agent`: transition to `rejected`, persist,
trash; the stable layer is never touched. -/
def reject_agent (o : Orchestrator) (aid : String) :
    Except String Orchestrator :=
  match alookup o.active_agents aid with
  | none => .error "KeyError"
  | some ctx =>
    let ctx2 := ctx.transition .rejected
    let o1 :=
      { o with
        active_agents := aset o.active_agents aid ctx2
        lifecycle := aset o.lifecycle aid ctx2 }
    .ok (trash_agent o1 aid)

/-- The operations a review cycle interleaves: agent-script writes,
rejects, accepts. -/
inductive AgentOp where
  | write (aid path content : String)
  | reject (aid : String)
  | accept (aid : String)
deriving DecidableEq, Repr

def AgentOp.isAccept : AgentOp → Bool
  | .accept _ => true
  | _ => false

/-- Apply one operation; a `KeyError` (unknown agent) aborts the command
leaving the state unchanged. -/
def applyOp (o : Orchestrator) : AgentOp → Orchestrator
  | .write aid path content => writeFileOp o aid path content
  | .reject aid =>
    match reject_agent o aid with
    | .ok o2 => o2
    | .error _ => o
  | .accept aid =>
    match accept_agent o aid with
    | .ok o2 => o2
    | .error _ => o

def runOps (o : Orchestrator) (ops : List AgentOp) : Orchestrator :=
  ops.foldl applyOp o

/-- Concrete two-agent orchestrator used by the isolation witness. -/
def oIsolationDemo : Orchestrator :=
  { stable := [("README", "orig")]
    active_agents :=
      [("a1", { task := "edit", state := .reviewing, overlay := [] }),
       ("a2", { task := "other", state := .executing, overlay := [] })]
    lifecycle := [] }

/-- Concrete trace: agent a1 writes README, then is rejected. -/
def opsIsolationDemo : List AgentOp :=
  [.write "a1" "README" "new", .reject "a1"]

/-- Concrete orchestrator holding one agent in `executing`. -/
def oExecDemo : Orchestrator :=
  { stable := []
    active_agents :=
      [("a1", { task := "t", state := .executing, overlay := [("f", "v")] })]
    lifecycle := [] }

/-- Agent overlay used by the read fall-through witness. -/
def ovDemo : FileMap := [("both.txt", "overlay")]

/-- Stable base used by the read fall-through witness. -/
def stDemo : FileMap := [("both.txt", "stable"), ("base.txt", "base")]

/-! ## Generated-code validation (`cairn/executor.py`) -/

/-- A generated code string, abstracted by the syntactic features the
specification's validation step speaks about.  `parses` is the outcome of
the CPython `compile(code, "<string>", "exec")` call; the remaining
fields record whether the text contains import constructs, `open`-style
file primitives, eval/exec equivalents, and a call to `submit_result`.
`AgentExecutor.validate_code` receives the full string but, as the
theorems show, depends only on `parses`. -/
structure GeneratedCode where
  parses : Bool
  hasImport : Bool
  hasOpenCall : Bool
  hasEvalExec : Bool
  callsSubmitResult : Bool
deriving DecidableEq, Repr

/-- `AgentExecutor.validate_code`: runs `compile(code, "<string>",
"exec")` and returns `(True, None)` on success, `(False, message)` on
`SyntaxError`. -/
def validate_code (code : GeneratedCode) : Bool × Option String :=
  if code.parses then (true, none) else (false, some "SyntaxError")

/-- The validation gate inside `CairnOrchestrator._run_agent` (lines
362-364): when `validate_code` reports failure a `RuntimeError` is
raised, caught by the lifecycle's exception handler, and the agent
transitions directly to `errored` without executing; otherwise the run
proceeds to `executing`. -/
def runValidationGate (ctx : AgentContext) (code : GeneratedCode) :
    AgentContext :=
  if (validate_code code).1 then ctx.transition .executing
  else { ctx.transition .errored with error := (validate_code code).2 }

/-- The feature vector of the Python text `import os`: it compiles,
contains an import construct, and never calls `submit_result`. -/
def importOsCode : GeneratedCode :=
  { parses := true, hasImport := true, hasOpenCall := false
    hasEvalExec := false, callsSubmitResult := false }

/-- A string that is not valid Python, e.g. `def (`: fails to compile,
contains none of the forbidden constructs. -/
def badSyntaxCode : GeneratedCode :=
  { parses := false, hasImport := false, hasOpenCall := false
    hasEvalExec := false, callsSubmitResult := true }

/-! ## JSON values and the submission KV (`cairn/kv_store.py`,
`cairn/external_functions.py`, submitting phase of
`cairn/orchestrator.py`)

The KV namespace stores JSON-encoded strings; the `json.dumps` /
`json.loads` round trip is embedded by storing the `Json` value itself. -/

inductive Json where
  | null
  | bool (b : Bool)
  | num (n : Int)
  | str (s : String)
  | arr (elems : List Json)
  | obj (fields : List (String × Json))

/-- One agent's KV namespace. -/
abbrev KVMap := List (String × Json)

/-- `SUBMISSION_KEY` from `cairn/kv_models.py`. -/
def SUBMISSION_KEY : String := "submission"

/-- Field access on a JSON object (`payload["key"]` / `payload.get`). -/
def Json.getField (j : Json) (key : String) : Option Json :=
  match j with
  | .obj fields => alookup fields key
  | _ => none

/-- `KVRepository.save_submission`: wrap the submission in a
`SubmissionRecord {agent_id, submission}` and store its JSON under the
fixed key. -/
def save_submission (kv : KVMap) (agent_id : String) (submission : Json) :
    KVMap :=
  aset kv SUBMISSION_KEY
    (.obj [("agent_id", .str agent_id), ("submission", submission)])

/-- `CairnExternalFunctions.submit_result`: build the
`SubmissionPayload {summary, changed_files}` and store it through
`save_submission` in the agent's KV. -/
def submit_result (kv : KVMap) (agent_id summary : String)
    (changed_files : List String) : KVMap :=
  save_submission kv agent_id
    (.obj [("summary", .str summary),
      ("changed_files", .arr (changed_files.map Json.str))])

/-- `KVRepository.load_submission`: read the fixed key; absent → `None`.
An object carrying a "submission" field is the typed `SubmissionRecord`
form and yields its inner submission (pydantic validation requires a
string `agent_id` field and an object-valued submission); any other
object is the legacy raw form and is returned as-is; a non-object raises
`ValueError`. -/
def load_submission (kv : KVMap) : Except String (Option Json) :=
  match alookup kv SUBMISSION_KEY with
  | none => .ok none
  | some payload =>
    match payload with
    | .obj fields =>
      match alookup fields "submission" with
      | some sub =>
        match alookup fields "agent_id", sub with
        | some (.str _), .obj _ => .ok (some sub)
        | _, _ => .error "ValidationError"
      | none => .ok (some payload)
    | _ => .error "Invalid submission payload"

/-- The submitting phase of `CairnOrchestrator._run_agent` (lines
376-379): read the raw KV value at "submission" and, when present,
`json.loads` it and record it on the context unchanged (the context's
submission stays `None` when the key is absent). -/
def runnerReadSubmission (kv : KVMap) : Option Json :=
  alookup kv SUBMISSION_KEY

/-- The inner submission payload written by
`submit_result("edit", ["README"])`. -/
def innerSubmissionDemo : Json :=
  .obj [("summary", .str "edit"), ("changed_files", .arr [.str "README"])]

/-- The agent KV after the script calls
`submit_result("edit", ["README"])`. -/
def kvTaggedDemo : KVMap := submit_result [] "agent-1" "edit" ["README"]

/-! ## Command model and parsing (`cairn/commands.py`) -/

/-- `CommandType` enum values. -/
inductive CommandType where
  | queue
  | accept
  | reject
  | status
  | list_agents
deriving DecidableEq, Repr

/-- Normalized command object (`CairnCommand` dataclass fields). -/
structure CairnCommand where
  type : CommandType
  agent_id : Option String := none
  task : Option String := none
  priority : Option TaskPriority := none
  metadata : List (String × Json) := []

/-- Python truthiness of an optional string: `not x` is true for `None`
and for the empty string. -/
def strFalsy : Option String → Bool
  | none => true
  | some s => s.isEmpty

/-- `CairnCommand.__post_init__`: queue commands require a truthy task;
accept/reject/status require a truthy agent_id; violations raise
`ValueError` (the spec's `InvalidCommand`). -/
def mkCairnCommand (type : CommandType) (agent_id task : Option String)
    (priority : Option TaskPriority) (metadata : List (String × Json)) :
    Except String CairnCommand :=
  if type = .queue ∧ strFalsy task = true then
    .error "queue commands require task"
  else if (type = .accept ∨ type = .reject ∨ type = .status) ∧
      strFalsy agent_id = true then
    .error "commands require agent_id"
  else
    .ok { type := type, agent_id := agent_id, task := task,
          priority := priority, metadata := metadata }

/-- `data.get(key)` returning a string field. -/
def Json.asString : Json → Option String
  | .str s => some s
  | _ => none

/-- A JSON number read as an integer (`int(raw_priority)`). -/
def Json.asInt : Json → Option Int
  | .num n => some n
  | _ => none

/-- Python's `tag.strip().lower().replace("-", "_")`: whitespace trimmed
at both ends, characters lowered, dashes folded to underscores — a
character-level embedding of the Python string methods. -/
def normalizeTag (tag : String) : String :=
  String.mk
    ((((tag.toList.dropWhile Char.isWhitespace).reverse.dropWhile
        Char.isWhitespace).reverse).map
      (fun c => if c = '-' then '_' else c.toLower))

/-- `_parse_command_type` on a string tag: strip, lower, fold dashes to
underscores; `"spawn"` aliases `Queue` with the alias flag set; the five
enum values parse to themselves; anything else raises `ValueError`. -/
def parseCommandType (tag : String) : Except String (CommandType × Bool) :=
  let normalized := normalizeTag tag
  if normalized = "spawn" then .ok (.queue, true)
  else if normalized = "queue" then .ok (.queue, false)
  else if normalized = "accept" then .ok (.accept, false)
  else if normalized = "reject" then .ok (.reject, false)
  else if normalized = "status" then .ok (.status, false)
  else if normalized = "list_agents" then .ok (.list_agents, false)
  else .error "unsupported command type"

/-- `parse_command_payload(command_type, payload)`: normalize the tag,
extract `agent_id`/`task`/`metadata`, and for `Queue` commands resolve
the priority — the payload's explicit `priority` when present, otherwise
`HIGH` for the spawn alias and `NORMAL` for plain queue; the resolved
integer must be a valid `TaskPriority` value.  String-valued fields are
modelled as such (the Python code passes payload values through
untyped). -/
def parse_command_payload (tag : String) (payload : List (String × Json)) :
    Except String CairnCommand := do
  let tp ← parseCommandType tag
  let command := tp.1
  let is_spawn_alias := tp.2
  let agent_id := (alookup payload "agent_id").bind Json.asString
  let task := (alookup payload "task").bind Json.asString
  let metadata :=
    match alookup payload "metadata" with
    | some (.obj fields) => fields
    | _ => []
  let priority ←
    if command = CommandType.queue then do
      let defaultPriority : TaskPriority :=
        if is_spawn_alias then .high else .normal
      let raw ←
        match alookup payload "priority" with
        | none => pure defaultPriority.toInt
        | some j =>
          match j.asInt with
          | some n => pure n
          | none => throw "invalid priority value"
      let p ← TaskPriority.ofInt raw
      pure (some p)
    else
      pure none
  mkCairnCommand command agent_id task priority metadata

/-! ## Signal files (`cairn/signals.py`) -/

/-- A signal file: its stem (file name without `.json`) and its payload
after `_load_payload` — read plus `json.loads`, where a read or decode
failure or a non-object document yields the empty object, so the parser
always receives an object. -/
structure SignalFile where
  stem : String
  payload : List (String × Json)

/-- `COMPATIBILITY_SIGNAL_TYPES`, in declaration order, with command
types taken by value. -/
def COMPATIBILITY_SIGNAL_TYPES : List (String × String) :=
  [("spawn", "spawn"), ("queue", "queue"), ("accept", "accept"),
    ("reject", "reject")]

/-- Character-level test that the second list begins with the first. -/
def startsWithChars : List Char → List Char → Bool
  | [], _ => true
  | _ :: _, [] => false
  | p :: ps, c :: cs => p = c && startsWithChars ps cs

/-- Python's `s.startswith(pat)`, character-level. -/
def pyStartsWith (s pat : String) : Bool :=
  startsWithChars pat.toList s.toList

/-- `_compatibility_command_type`: the first table entry whose stem
pattern `"{p}-"` the file stem starts with. -/
def compatibilityCommandType (stem : String) : Option String :=
  (COMPATIBILITY_SIGNAL_TYPES.find?
    (fun pc => pyStartsWith stem (pc.1 ++ "-"))).map (fun pc => pc.2)

/-- Drop the first occurrence of the (nonempty) pattern from the list. -/
def removeFirstChars (pat : List Char) : List Char → List Char
  | [] => []
  | c :: cs =>
    if startsWithChars pat (c :: cs) then (c :: cs).drop pat.length
    else c :: removeFirstChars pat cs

/-- Python's `s.replace(old, "", 1)`: remove the first occurrence of
`old`, character-level. -/
def replaceFirst (s old : String) : String :=
  String.mk (removeFirstChars old.toList s.toList)

/-- `_apply_compatibility_defaults`: inject the `agent_id` derived from
the file stem for accept/reject payloads that lack one. -/
def applyCompatibilityDefaults (stem : String)
    (payload : List (String × Json)) (ctype : String) :
    List (String × Json) :=
  let p1 :=
    if ctype = "accept" ∧ (alookup payload "agent_id").isNone = true then
      aset payload "agent_id" (.str (replaceFirst stem "accept-"))
    else payload
  if ctype = "reject" ∧ (alookup p1 "agent_id").isNone = true then
    aset p1 "agent_id" (.str (replaceFirst stem "reject-"))
  else p1

/-- `_parse_signal_file`: the command tag is the payload's `type` field
when truthy, else the file-name compatibility tag; with no tag the file
is skipped (`None`); otherwise defaults are injected and the payload is
parsed by `parse_command_payload`, whose `ValueError` propagates. -/
def parse_signal_file (f : SignalFile) :
    Except String (Option CairnCommand) := do
  let fromPayload := (alookup f.payload "type").bind Json.asString
  let ctype : Option String :=
    match fromPayload with
    | some t => if t.isEmpty then compatibilityCommandType f.stem else some t
    | none => compatibilityCommandType f.stem
  match ctype with
  | none => pure none
  | some t =>
    let payload2 := applyCompatibilityDefaults f.stem f.payload t
    let cmd ← parse_command_payload t payload2
    pure (some cmd)

/-- Outcome of one polling pass. -/
structure PollResult where
  dispatched : List CairnCommand
  remaining : List SignalFile
  crashed : Option String

/-- `SignalHandler.process_signals_once` over the (lexicographically
sorted) signal files: each file is parsed and dispatched inside a
`try/finally` whose `finally` unlinks the file.  There is no `except`
clause, so a parse error propagates out of the loop after the offending
file is unlinked and before any later file is touched.  Dispatch is
modelled as recording the command. -/
def process_signals_once : List SignalFile → PollResult
  | [] => { dispatched := [], remaining := [], crashed := none }
  | f :: rest =>
    match parse_signal_file f with
    | .error e => { dispatched := [], remaining := rest, crashed := some e }
    | .ok none => process_signals_once rest
    | .ok (some cmd) =>
      let r := process_signals_once rest
      { r with dispatched := cmd :: r.dispatched }

/-! ## Theorems -/

theorem keyLE_refl (a : Int × Nat) : keyLE a a := Or.inr ⟨rfl, le_refl _⟩

theorem keyLE_trans {a b c : Int × Nat} (hab : keyLE a b) (hbc : keyLE b c) :
    keyLE a c := by
  rcases hab with h1 | ⟨h1, h1c⟩ <;> rcases hbc with h2 | ⟨h2, h2c⟩
  · exact Or.inl (lt_trans h1 h2)
  · exact Or.inl (h2 ▸ h1)
  · exact Or.inl (h1 ▸ h2)
  · exact Or.inr ⟨h1.trans h2, le_trans h1c h2c⟩

theorem keyLE_total (a b : Int × Nat) : keyLE a b ∨ keyLE b a := by
  rcases lt_trichotomy a.1 b.1 with h | h | h
  · exact Or.inl (Or.inl h)
  · rcases le_total a.2 b.2 with h2 | h2
    · exact Or.inl (Or.inr ⟨h, h2⟩)
    · exact Or.inr (Or.inr ⟨h.symm, h2⟩)
  · exact Or.inr (Or.inl h)

theorem popMin_none_iff (l : List QueuedTask) : popMin l = none ↔ l = [] := by
  cases l with
  | nil => simp [popMin]
  | cons t ts =>
    simp only [popMin]
    cases hp : popMin ts with
    | none => simp
    | some p =>
      by_cases h : keyLE t.sortKey p.1.sortKey <;> simp [h]

theorem popMin_perm :
    ∀ (l : List QueuedTask) (t : QueuedTask) (rest : List QueuedTask),
      popMin l = some (t, rest) → l.Perm (t :: rest) := by
  intro l
  induction l with
  | nil => intro t rest h; simp [popMin] at h
  | cons x ts ih =>
    intro t rest h
    simp only [popMin] at h
    cases hp : popMin ts with
    | none =>
      rw [hp] at h
      cases h
      rw [(popMin_none_iff ts).mp hp]
    | some p =>
      obtain ⟨m, r⟩ := p
      rw [hp] at h
      by_cases hk : keyLE x.sortKey m.sortKey
      · simp only [hk, if_pos] at h
        cases h
        exact List.Perm.refl _
      · simp only [hk, if_neg, not_false_iff] at h
        cases h
        exact ((ih _ _ hp).cons x).trans (List.Perm.swap _ _ _)

theorem popMin_min :
    ∀ (l : List QueuedTask) (t : QueuedTask) (rest : List QueuedTask),
      popMin l = some (t, rest) →
      ∀ u ∈ rest, keyLE t.sortKey u.sortKey := by
  intro l
  induction l with
  | nil => intro t rest h; simp [popMin] at h
  | cons x ts ih =>
    intro t rest h u hu
    simp only [popMin] at h
    cases hp : popMin ts with
    | none =>
      rw [hp] at h
      cases h
      simp at hu
    | some p =>
      obtain ⟨m, r⟩ := p
      rw [hp] at h
      by_cases hk : keyLE x.sortKey m.sortKey
      · simp only [hk, if_pos] at h
        cases h
        have hmem : u ∈ m :: r := ((popMin_perm ts m r hp).mem_iff).mp hu
        rcases List.mem_cons.mp hmem with rfl | hur
        · exact hk
        · exact keyLE_trans hk (ih m r hp u hur)
      · simp only [hk, if_neg, not_false_iff] at h
        cases h
        rcases List.mem_cons.mp hu with rfl | hur
        · rcases keyLE_total u.sortKey t.sortKey with hxm | hmx
          · exact absurd hxm hk
          · exact hmx
        · exact ih t r hp u hur

/-- C4: every dequeued task's priority is greater than or equal to the
priority of every task still in the queue at the moment of dequeue, and
among tasks of equal priority the earlier-enqueued task is dequeued
first — the heap orders by the key `(-priority, enqueued_at)`, smaller
keys first. -/
theorem dequeue_returns_max_priority (q q' : TaskQueue) (t u : QueuedTask)
    (h : q.dequeue = (some t, q')) (hu : u ∈ q'.queue) :
    u.priority.toInt ≤ t.priority.toInt ∧
      (u.priority = t.priority → t.created_at ≤ u.created_at) := by
  unfold TaskQueue.dequeue at h
  by_cases hc : q.max_concurrent ≤ q.active_count
  · simp [hc] at h
  · simp only [hc, if_neg, not_false_iff] at h
    cases hp : popMin q.queue with
    | none => rw [hp] at h; simp at h
    | some p =>
      obtain ⟨m, rest⟩ := p
      rw [hp] at h
      cases h
      simp only at hu
      have hkey := popMin_min q.queue _ _ hp u hu
      rcases hkey with hlt | ⟨heq, hle⟩
      · have hplt : u.priority.toInt < t.priority.toInt := by
          simp only [QueuedTask.sortKey] at hlt
          omega
        refine ⟨le_of_lt hplt, fun hpr => absurd ?_ (lt_irrefl t.priority.toInt)⟩
        rw [hpr] at hplt
        exact hplt
      · have hpeq : u.priority.toInt = t.priority.toInt := by
          simp only [QueuedTask.sortKey] at heq
          omega
        refine ⟨le_of_eq hpeq, fun _ => ?_⟩
        simpa [QueuedTask.sortKey] using hle

/-- Witness for C4 at a concrete queue: the first `URGENT` task is popped
before the second `URGENT` task and before the `LOW` task. -/
theorem dequeue_returns_max_priority_witness :
    (QueuedTask.mk "b" .urgent 1).priority.toInt ≤
        (QueuedTask.mk "a" .urgent 0).priority.toInt ∧
      (QueuedTask.mk "a" .urgent 0).created_at ≤
        (QueuedTask.mk "b" .urgent 1).created_at :=
  have h := dequeue_returns_max_priority qOrderDemo (qOrderDemo.dequeue).2
    ⟨"a", .urgent, 0⟩ ⟨"b", .urgent, 1⟩ (by decide) (by decide)
  ⟨h.1, h.2 rfl⟩

/-- C5 counterexample: with capacity one and two queued tasks, after one
dequeue the queue still holds a task yet `dequeue` returns `None` — the
queue itself gates dequeues on its concurrency slot counter, and its own
`mark_complete` bookkeeping reopens the gate. -/
theorem dequeue_gated_counterexample :
    ((qGateDemo.dequeue).2.dequeue).1 = none ∧
      (qGateDemo.dequeue).2.size = 1 ∧
      ((((qGateDemo.dequeue).2.mark_complete).dequeue).1).isSome = true := by
  decide

/-- C5 amended: a non-blocking dequeue returns a task exactly when the
queue is nonempty and `active_count` is below `max_concurrent`; the queue
manages the concurrency slots and completion counting itself
(`active_count`, `completed_count`, `mark_complete`). -/
theorem dequeue_isSome_iff (q : TaskQueue) :
    ((q.dequeue).1.isSome = true) ↔
      (q.queue ≠ [] ∧ q.active_count < q.max_concurrent) := by
  unfold TaskQueue.dequeue
  by_cases hc : q.max_concurrent ≤ q.active_count
  · simp only [hc, if_pos, Option.isSome_none]
    constructor
    · intro h; cases h
    · intro h; omega
  · cases hp : popMin q.queue with
    | none =>
      simp [hc, hp, (popMin_none_iff _).mp hp]
    | some p =>
      obtain ⟨t, rest⟩ := p
      have hne : q.queue ≠ [] := by
        intro hnil
        rw [hnil] at hp
        simp [popMin] at hp
      simp only [hc, if_neg, not_false_iff, hp, Option.isSome_some]
      constructor
      · intro _; exact ⟨hne, by omega⟩
      · intro _; trivial

theorem alookup_aset_self {α : Type} (m : List (String × α)) (k : String)
    (v : α) : alookup (aset m k v) k = some v := by
  simp [aset, alookup]

theorem alookup_aerase_ne {α : Type} (m : List (String × α)) (k b : String)
    (h : b ≠ k) : alookup (aerase m k) b = alookup m b := by
  induction m with
  | nil => rfl
  | cons kv rest ih =>
    obtain ⟨k0, v0⟩ := kv
    by_cases hk : k = k0
    · subst hk
      simp [aerase, alookup, ih, h]
    · by_cases hb : b = k0 <;> simp [aerase, alookup, hk, hb, ih]

theorem alookup_aset_ne {α : Type} (m : List (String × α)) (k b : String)
    (v : α) (h : b ≠ k) : alookup (aset m k v) b = alookup m b := by
  simp [aset, alookup, h, alookup_aerase_ne m k b h]

theorem alookup_aerase_self {α : Type} (m : List (String × α)) (k : String) :
    alookup (aerase m k) k = none := by
  induction m with
  | nil => rfl
  | cons kv rest ih =>
    obtain ⟨k0, v0⟩ := kv
    by_cases hk : k = k0
    · subst hk
      simpa [aerase] using ih
    · simp [aerase, alookup, hk, ih]

theorem writeFileOp_stable (o : Orchestrator) (aid path content : String) :
    (writeFileOp o aid path content).stable = o.stable := by
  unfold writeFileOp
  cases alookup o.active_agents aid <;> rfl

theorem trash_agent_stable (o : Orchestrator) (aid : String) :
    (trash_agent o aid).stable = o.stable := by
  unfold trash_agent
  cases alookup o.active_agents aid <;> rfl

theorem reject_agent_stable (o o2 : Orchestrator) (aid : String)
    (h : reject_agent o aid = .ok o2) : o2.stable = o.stable := by
  unfold reject_agent at h
  cases hl : alookup o.active_agents aid with
  | none => rw [hl] at h; cases h
  | some ctx =>
    rw [hl] at h
    simp only [Except.ok.injEq] at h
    rw [← h, trash_agent_stable]

theorem applyOp_stable (o : Orchestrator) (op : AgentOp)
    (h : op.isAccept = false) : (applyOp o op).stable = o.stable := by
  cases op with
  | write aid path content => exact writeFileOp_stable o aid path content
  | reject aid =>
    simp only [applyOp]
    cases hr : reject_agent o aid with
    | ok o2 => exact reject_agent_stable o o2 aid hr
    | error e => rfl
  | accept aid => simp [AgentOp.isAccept] at h

theorem runOps_stable (o : Orchestrator) (ops : List AgentOp)
    (h : ∀ op ∈ ops, op.isAccept = false) :
    (runOps o ops).stable = o.stable := by
  induction ops generalizing o with
  | nil => rfl
  | cons op rest ih =>
    have h1 := h op (List.mem_cons_self op rest)
    have h2 : ∀ op2 ∈ rest, op2.isAccept = false :=
      fun op2 hm => h op2 (List.mem_cons_of_mem op hm)
    calc (runOps o (op :: rest)).stable
        = (runOps (applyOp o op) rest).stable := rfl
      _ = (applyOp o op).stable := ih (applyOp o op) h2
      _ = o.stable := applyOp_stable o op h1

/-- C1: a script write via `write_file` lands only in the writing agent's
own overlay — the stable layer and every other agent's entry are
unchanged — and the stable layer's content at any path is preserved by
every sequence of writes and rejects, so `stable.read(f)` returns the
pre-agent value until an `Accept` merge runs. -/
theorem agent_write_isolated_until_accept
    (o : Orchestrator) (a path content : String) (ops : List AgentOp)
    (f : String) (h : ∀ op ∈ ops, op.isAccept = false) :
    (writeFileOp o a path content).stable = o.stable ∧
    (∀ b, b ≠ a →
      alookup (writeFileOp o a path content).active_agents b =
        alookup o.active_agents b) ∧
    alookup (runOps o ops).stable f = alookup o.stable f := by
  refine ⟨writeFileOp_stable o a path content, ?_, ?_⟩
  · intro b hb
    unfold writeFileOp
    cases hl : alookup o.active_agents a with
    | none => rfl
    | some ctx => exact alookup_aset_ne o.active_agents a b _ hb
  · rw [runOps_stable o ops h]

/-- Witness for C1: in the concrete two-agent state, a1's write leaves
stable and a2's entry untouched, and stable's README still reads "orig"
after a1 writes it and is rejected. -/
theorem agent_write_isolated_until_accept_witness :
    (writeFileOp oIsolationDemo "a1" "README" "new").stable =
        oIsolationDemo.stable ∧
      alookup (writeFileOp oIsolationDemo "a1" "README" "new").active_agents
          "a2" = alookup oIsolationDemo.active_agents "a2" ∧
      alookup (runOps oIsolationDemo opsIsolationDemo).stable "README" =
        alookup oIsolationDemo.stable "README" :=
  have h := agent_write_isolated_until_accept oIsolationDemo "a1" "README"
    "new" opsIsolationDemo "README" (by decide)
  ⟨h.1, h.2.1 "a2" (by decide), h.2.2⟩

/-- C2 counterexample: accepting an agent whose state is `executing` (not
`reviewing`) does not fail with InvalidState and does not leave the state
unchanged — `accept_agent` succeeds, records the agent as `accepted`,
merges its overlay into stable, and trashes it. -/
theorem accept_agent_no_state_check_counterexample :
    accept_agent oExecDemo "a1" =
      .ok { stable := [("f", "v")]
            active_agents := []
            lifecycle :=
              [("a1",
                { task := "t", state := .accepted, overlay := [("f", "v")] })] } := by
  rfl

/-- C2 amended: `accept_agent` performs no state validation.  For an
unknown agent it fails with `KeyError`; for any active agent, whatever its
current state, it succeeds: the agent is recorded as `accepted` in the
lifecycle store, removed from the active set, and its overlay is merged
into stable. -/
theorem accept_agent_unconditional (o : Orchestrator) (aid : String) :
    (alookup o.active_agents aid = none →
      accept_agent o aid = .error "KeyError") ∧
    (∀ ctx, alookup o.active_agents aid = some ctx →
      (accept_agent o aid).map
          (fun o2 =>
            (alookup o2.lifecycle aid, alookup o2.active_agents aid,
              o2.stable)) =
        .ok (some (ctx.transition .accepted), none,
          mergeOverlayToStable ctx.overlay o.stable)) := by
  constructor
  · intro hn
    unfold accept_agent
    rw [hn]
  · intro ctx hc
    unfold accept_agent
    rw [hc]
    simp only [Except.map, trash_agent, alookup_aset_self,
      alookup_aerase_self, AgentContext.transition]

/-- Witness for C2 amended: accepting the concrete `executing` agent
succeeds, stores an `accepted` record, empties the active set, and merges
the overlay. -/
theorem accept_agent_unconditional_witness :
    (accept_agent oExecDemo "a1").map
        (fun o2 =>
          (alookup o2.lifecycle "a1", alookup o2.active_agents "a1",
            o2.stable)) =
      .ok (some (AgentContext.transition
            { task := "t", state := .executing, overlay := [("f", "v")] }
            .accepted),
        none,
        mergeOverlayToStable [("f", "v")] []) :=
  (accept_agent_unconditional oExecDemo "a1").2
    { task := "t", state := .executing, overlay := [("f", "v")] } (by decide)

/-- C6: `read_file` returns the agent overlay's own bytes when the path
exists in the agent layer; when absent there but present in the stable
base it returns the base's bytes; and when no layer contains the path it
fails with NotFound (`none`). -/
theorem read_file_fallthrough (agent_fs stable_fs : FileMap)
    (path : String) :
    (∀ c, alookup agent_fs path = some c →
      read_file agent_fs stable_fs path = some c) ∧
    (alookup agent_fs path = none →
      read_file agent_fs stable_fs path = alookup stable_fs path) ∧
    (alookup agent_fs path = none → alookup stable_fs path = none →
      read_file agent_fs stable_fs path = none) := by
  refine ⟨?_, ?_, ?_⟩
  · intro c hc
    unfold read_file
    rw [hc]
  · intro hn
    unfold read_file
    rw [hn]
  · intro hn hs
    unfold read_file
    rw [hn, hs]

/-- Witness for C6: overlay hit, base fall-through, and NotFound, each at
a concrete path. -/
theorem read_file_fallthrough_witness :
    read_file ovDemo stDemo "both.txt" = some "overlay" ∧
      read_file ovDemo stDemo "base.txt" = some "base" ∧
      read_file ovDemo stDemo "missing.txt" = none :=
  ⟨(read_file_fallthrough ovDemo stDemo "both.txt").1 "overlay" (by decide),
    Eq.trans ((read_file_fallthrough ovDemo stDemo "base.txt").2.1
      (by decide)) (by decide),
    (read_file_fallthrough ovDemo stDemo "missing.txt").2.2 (by decide)
      (by decide)⟩

/-- C10: for a path present only in the stable base, `file_exists` returns
false even though `read_file` succeeds by falling through — `file_exists`
consults only the agent overlay, never the base. -/
theorem file_exists_ignores_base (agent_fs stable_fs : FileMap)
    (path : String) (h1 : alookup agent_fs path = none)
    (h2 : (alookup stable_fs path).isSome = true) :
    file_exists agent_fs path = false ∧
      (read_file agent_fs stable_fs path).isSome = true := by
  constructor
  · unfold file_exists
    rw [h1]
    rfl
  · unfold read_file
    rw [h1]
    exact h2

/-- Witness for C10: empty agent overlay, base holding one file. -/
theorem file_exists_ignores_base_witness :
    file_exists ([] : FileMap) "base.txt" = false ∧
      (read_file ([] : FileMap) [("base.txt", "base")] "base.txt").isSome =
        true :=
  file_exists_ignores_base [] [("base.txt", "base")] "base.txt" (by decide)
    (by decide)

/-- C3 counterexample: generated code containing an import construct and
lacking any `submit_result` call passes pre-execution validation —
`validate_code` returns `(True, None)` and the run proceeds to
`executing` rather than skipping to `errored`. -/
theorem validate_code_ignores_content_counterexample :
    validate_code importOsCode = (true, none) ∧
      importOsCode.hasImport = true ∧
      importOsCode.callsSubmitResult = false ∧
      (runValidationGate { task := "t", state := .generating }
          importOsCode).state = .executing := by
  decide

/-- C3 amended: the pre-execution validation step checks syntax only —
`validate_code` accepts exactly the code that compiles, and is
insensitive to import constructs, `open`-style primitives, eval/exec
equivalents, and the presence of a `submit_result` call — and on a
rejection the agent skips execution and transitions directly to
`errored`. -/
theorem validate_code_syntax_only (ctx : AgentContext)
    (code : GeneratedCode) :
    ((validate_code code).1 = code.parses) ∧
    (∀ other : GeneratedCode, other.parses = code.parses →
      validate_code other = validate_code code) ∧
    (code.parses = false →
      (runValidationGate ctx code).state = .errored) ∧
    (code.parses = true →
      (runValidationGate ctx code).state = .executing) := by
  refine ⟨?_, ?_, ?_, ?_⟩
  · unfold validate_code
    cases code.parses <;> rfl
  · intro other hp
    unfold validate_code
    rw [hp]
  · intro hp
    unfold runValidationGate validate_code
    rw [hp]
    rfl
  · intro hp
    unfold runValidationGate validate_code
    rw [hp]
    rfl

/-- Witness for C3 amended: the syntactically invalid code is rejected
and the agent lands in `errored`. -/
theorem validate_code_syntax_only_witness :
    ((validate_code badSyntaxCode).1 = badSyntaxCode.parses) ∧
      (runValidationGate { task := "t", state := .generating }
          badSyntaxCode).state = .errored :=
  have h := validate_code_syntax_only { task := "t", state := .generating }
    badSyntaxCode
  ⟨h.1, h.2.2.1 rfl⟩

/-- C7 counterexample: after a `submit_result` call the KV holds the
tagged `{agent_id, submission}` record, and the lifecycle runner records
that tagged record itself, not the inner `{summary, changed_files}`
payload — the recorded value has no "summary" field, while the inner
payload does. -/
theorem runner_submission_not_unwrapped_counterexample :
    runnerReadSubmission kvTaggedDemo =
      some (.obj [("agent_id", .str "agent-1"),
        ("submission", innerSubmissionDemo)]) ∧
      (runnerReadSubmission kvTaggedDemo).bind
          (fun j => j.getField "summary") = none ∧
      innerSubmissionDemo.getField "summary" = some (.str "edit") :=
  ⟨rfl, rfl, rfl⟩

/-- C7 amended: at the submitting phase the runner records the parsed
JSON at key "submission" unchanged — the tagged form stays wrapped, so
only the legacy untagged form coincides with the inner payload.  The
both-forms unwrapping the spec describes is implemented by
`KVRepository.load_submission` (which `_run_agent` does not call): it
returns the inner submission for the tagged form and the object itself
for the legacy untagged form. -/
theorem runner_submission_verbatim (kv : KVMap) (agent_id summary : String)
    (changed_files : List String) (legacy : List (String × Json)) :
    (∀ j, alookup kv SUBMISSION_KEY = some j →
      runnerReadSubmission kv = some j) ∧
    (runnerReadSubmission (submit_result kv agent_id summary changed_files) =
      some (.obj [("agent_id", .str agent_id),
        ("submission", .obj [("summary", .str summary),
          ("changed_files", .arr (changed_files.map Json.str))])])) ∧
    (load_submission (submit_result kv agent_id summary changed_files) =
      .ok (some (.obj [("summary", .str summary),
        ("changed_files", .arr (changed_files.map Json.str))]))) ∧
    (alookup legacy "submission" = none →
      load_submission (aset kv SUBMISSION_KEY (.obj legacy)) =
        .ok (some (.obj legacy))) := by
  refine ⟨?_, ?_, ?_, ?_⟩
  · intro j hj
    unfold runnerReadSubmission
    rw [hj]
  · unfold runnerReadSubmission submit_result save_submission
    rw [alookup_aset_self]
  · unfold load_submission submit_result save_submission
    rw [alookup_aset_self]
    rfl
  · intro hleg
    unfold load_submission
    rw [alookup_aset_self]
    simp only [hleg]

/-- Witness for C7 amended: the concrete tagged KV is recorded wrapped by
the runner, and `load_submission` unwraps the legacy form. -/
theorem runner_submission_verbatim_witness :
    (runnerReadSubmission (submit_result [] "agent-1" "edit" ["README"]) =
      some (.obj [("agent_id", .str "agent-1"),
        ("submission", .obj [("summary", .str "edit"),
          ("changed_files", .arr (["README"].map Json.str))])])) ∧
      (load_submission
          (aset [] SUBMISSION_KEY (.obj [("summary", .str "legacy")])) =
        .ok (some (.obj [("summary", .str "legacy")]))) :=
  have h := runner_submission_verbatim [] "agent-1" "edit" ["README"]
    [("summary", Json.str "legacy")]
  ⟨h.2.1, h.2.2.2 rfl⟩

theorem TaskPriority.ofInt_toInt (p : TaskPriority) :
    TaskPriority.ofInt p.toInt = .ok p := by
  cases p <;> rfl

theorem parseCommandType_spawn :
    parseCommandType "spawn" = .ok (.queue, true) := by
  rfl

theorem parseCommandType_queue :
    parseCommandType "queue" = .ok (.queue, false) := by
  rfl

/-- C9: parsing with the type tag "spawn" yields a Queue command whose
priority defaults to HIGH, parsing with tag "queue" yields one defaulting
to NORMAL, and an explicit priority field in the payload overrides either
default. -/
theorem spawn_alias_priority_default (task : String)
    (h : task.isEmpty = false) (p : TaskPriority) :
    ((parse_command_payload "spawn" [("task", .str task)]).map
        (fun c => (c.type, c.priority)) =
      .ok (CommandType.queue, some TaskPriority.high)) ∧
    ((parse_command_payload "queue" [("task", .str task)]).map
        (fun c => (c.type, c.priority)) =
      .ok (CommandType.queue, some TaskPriority.normal)) ∧
    ((parse_command_payload "spawn"
          [("task", .str task), ("priority", .num p.toInt)]).map
        (fun c => (c.type, c.priority)) =
      .ok (CommandType.queue, some p)) ∧
    ((parse_command_payload "queue"
          [("task", .str task), ("priority", .num p.toInt)]).map
        (fun c => (c.type, c.priority)) =
      .ok (CommandType.queue, some p)) := by
  refine ⟨?_, ?_, ?_, ?_⟩ <;>
    simp [parse_command_payload, parseCommandType_spawn, parseCommandType_queue,
      mkCairnCommand, strFalsy, h, Except.map, bind, Except.bind, pure,
      Except.pure, alookup, Json.asString, Json.asInt,
      TaskPriority.ofInt_toInt]

/-- Witness for C9 at the concrete task "t" and explicit priority
URGENT. -/
theorem spawn_alias_priority_default_witness :
    ((parse_command_payload "spawn" [("task", .str "t")]).map
        (fun c => (c.type, c.priority)) =
      .ok (CommandType.queue, some TaskPriority.high)) ∧
      ((parse_command_payload "queue" [("task", .str "t")]).map
          (fun c => (c.type, c.priority)) =
        .ok (CommandType.queue, some TaskPriority.normal)) ∧
      ((parse_command_payload "spawn"
            [("task", .str "t"),
              ("priority", .num TaskPriority.urgent.toInt)]).map
          (fun c => (c.type, c.priority)) =
        .ok (CommandType.queue, some TaskPriority.urgent)) :=
  have h := spawn_alias_priority_default "t" rfl .urgent
  ⟨h.1, h.2.1, h.2.2.1⟩

/-- C8 counterexample: the signal file `queue-1.json` with an empty
payload parses to an invalid command (queue without task); the resulting
`ValueError` escapes `process_signals_once` — there is no except clause
to log and skip — so the polling pass crashes; the offending file is
unlinked by the `finally`, but a valid file later in the same pass is
neither processed nor unlinked. -/
theorem invalid_signal_crashes_poller_counterexample :
    ((process_signals_once [⟨"queue-1", []⟩]).crashed =
        some "queue commands require task") ∧
      ((process_signals_once [⟨"queue-1", []⟩]).remaining = []) ∧
      ((process_signals_once
          [⟨"queue-1", []⟩, ⟨"queue-2", [("task", .str "t")]⟩]).remaining =
        [⟨"queue-2", [("task", .str "t")]⟩]) ∧
      ((process_signals_once
          [⟨"queue-2", [("task", .str "t")]⟩]).crashed = none) :=
  ⟨rfl, rfl, rfl, rfl⟩

/-- C8 amended: a signal file whose payload parses to an invalid command
makes the polling pass terminate with the parser's error — the poller
has no except clause, so it does not log-and-skip — while the offending
file itself is unlinked by the `finally`; files after it in the pass are
neither dispatched nor unlinked. -/
theorem invalid_signal_unlinked_crash (f : SignalFile)
    (rest : List SignalFile) (e : String)
    (h : parse_signal_file f = .error e) :
    process_signals_once (f :: rest) =
      { dispatched := [], remaining := rest, crashed := some e } := by
  unfold process_signals_once
  rw [h]

/-- Witness for C8 amended at the concrete invalid queue signal. -/
theorem invalid_signal_unlinked_crash_witness :
    process_signals_once
        [(⟨"queue-1", []⟩ : SignalFile), ⟨"accept-a", []⟩] =
      { dispatched := [], remaining := [⟨"accept-a", []⟩],
        crashed := some "queue commands require task" } :=
  invalid_signal_unlinked_crash ⟨"queue-1", []⟩ [⟨"accept-a", []⟩]
    "queue commands require task" rfl

end Cairn
